import Mathlib

/-!
Shallow embedding of the Qsafe post-quantum session core: the replay window
(`pkg/session/replay`), rotation manager (`pkg/session/rotation`), policy
enforcer (`pkg/session/policy`), transcript accumulator
(`pkg/session/transcript`), the record session (`pkg/session/state/session.go`)
and the handshake (`pkg/session/state`).  Byte strings are `List Nat`;
Go `uint64` counters are `Nat` reduced modulo `2^64` where the code can wrap;
`time.Time` and `time.Duration` are `Int` nanoseconds.  External cryptographic
primitives (BLAKE3, HKDF, the KEM, the signature scheme, XChaCha20-Poly1305)
are not part of this repository; they enter the model as explicit function
parameters, and theorems assume only the correctness contracts the code relies
on (e.g. AEAD open inverts seal, decapsulation recovers the encapsulated
secret).
-/

namespace QSafe

abbrev Bytes := List Nat

/-- Modulus of a Go `uint64`. -/
def u64Mod : Nat := 2 ^ 64

/-! ## Replay window (`pkg/session/replay`, src/unnamed/part_001) -/

/-- Errors surfaced by `Window.Accept`: the `seq == 0` guard, `ErrDuplicate`
and `ErrStale`. -/
inductive ReplayError where
  | seqZero
  | duplicate
  | stale
deriving DecidableEq

/-- State of `replay.Window`: `depth`, `highest` and the `seen` set.  The Go
`map[uint64]struct{}` is a set of sequence numbers; it is modelled as a
duplicate-free list with `List.insert` and membership as the set
operations. -/
structure Window where
  depth : Nat
  highest : Nat
  seen : List Nat
deriving DecidableEq

/-- `Window.prune`: drop every seen sequence at or below
`highest - depth` (threshold 0 when `highest <= depth`). -/
def Window.prune (w : Window) : Window :=
  if w.depth = 0 then w
  else
    let threshold := if w.depth < w.highest then w.highest - w.depth else 0
    { w with seen := w.seen.filter (fun s => decide (¬ s ≤ threshold)) }

/-- `Window.Accept`: validate and record a sequence number, following the Go
branch structure literally. -/
def Window.accept (w : Window) (seq : Nat) : Except ReplayError Window :=
  if seq = 0 then .error .seqZero
  else if w.highest = 0 then
    .ok { w with highest := seq, seen := w.seen.insert seq }
  else if w.highest < seq then
    .ok (Window.prune { w with highest := seq, seen := w.seen.insert seq })
  else if w.depth ≤ w.highest - seq then .error .stale
  else if seq ∈ w.seen then .error .duplicate
  else .ok { w with seen := w.seen.insert seq }

/-- `replay.New`: depth defaults to 2048 when the config leaves it zero. -/
def replayNew (cfgDepth : Nat) : Window :=
  { depth := if cfgDepth = 0 then 2048 else cfgDepth, highest := 0, seen := [] }

/-! ## Rotation manager (`pkg/session/rotation`, src/unnamed/part_003) -/

/-- `rotation.Config`: interval and skew are `time.Duration` (Int
nanoseconds), `MaxPackets` a `uint64`. -/
structure RotationConfig where
  interval : Int
  maxPackets : Nat
  skew : Int
deriving DecidableEq

/-- `rotation.Manager` state. -/
structure RotationManager where
  cfg : RotationConfig
  start : Int
  packets : Nat
  epoch : Nat
deriving DecidableEq

/-- `rotation.New`: interval defaults to 15 minutes and skew to 5 seconds
when non-positive. -/
def rotationNew (cfg : RotationConfig) (start : Int) (epoch : Nat) : RotationManager :=
  let cfg1 := if cfg.interval ≤ 0 then { cfg with interval := 900000000000 } else cfg
  let cfg2 := if cfg1.skew ≤ 0 then { cfg1 with skew := 5000000000 } else cfg1
  { cfg := cfg2, start := start, packets := 0, epoch := epoch }

/-- `Manager.shouldRotateLocked`: packet threshold, then deadline
`start + (interval - skew)` with skew zeroed when `skew >= interval`;
`!now.Before(deadline)` is `deadline <= now`. -/
def RotationManager.shouldRotateLocked (m : RotationManager) (now : Int) : Bool :=
  if 0 < m.cfg.maxPackets ∧ m.cfg.maxPackets ≤ m.packets then true
  else
    let skew := if m.cfg.interval ≤ m.cfg.skew then 0 else m.cfg.skew
    decide (m.start + (m.cfg.interval - skew) ≤ now)

/-- `Manager.Record`: increment the `uint64` packet counter (wrapping) and
return the rotation check on the updated state. -/
def RotationManager.record (m : RotationManager) (now : Int) : Bool × RotationManager :=
  let m1 := { m with packets := (m.packets + 1) % u64Mod }
  (m1.shouldRotateLocked now, m1)

/-- `Manager.NextEpoch`. -/
def RotationManager.nextEpoch (m : RotationManager) : Nat := m.epoch

/-! ## Policy enforcer (`pkg/session/policy`, src/unnamed/part_006) -/

/-- The four `fmt.Errorf` failures of `Enforcer.Validate`, in source order. -/
inductive PolicyError where
  | modeNotPermitted
  | aeadNotPermitted
  | belowMinimum
  | exceedsMaximum
deriving DecidableEq

/-- `policy.Config`. -/
structure PolicyConfig where
  allowedModes : List String
  allowedAEAD : List String
  minRotation : Int
  maxRotation : Int
deriving DecidableEq

/-- `policy.Parameters`. -/
structure PolicyParameters where
  mode : String
  aead : String
  rotationWindow : Int
deriving DecidableEq

/-- `policy.Enforcer`.  The Go sets are maps built from the configured lists;
emptiness and membership agree with the list model. -/
structure Enforcer where
  modes : List String
  aeads : List String
  cfg : PolicyConfig
deriving DecidableEq

/-- `policy.New`: build membership sets and default `MinRotation` to 5 minutes
and `MaxRotation` to 60 minutes when non-positive. -/
def policyNew (cfg : PolicyConfig) : Enforcer :=
  let cfg1 := if cfg.minRotation ≤ 0 then { cfg with minRotation := 300000000000 } else cfg
  let cfg2 := if cfg1.maxRotation ≤ 0 then { cfg1 with maxRotation := 3600000000000 } else cfg1
  { modes := cfg.allowedModes, aeads := cfg.allowedAEAD, cfg := cfg2 }

/-- `Enforcer.Validate`: first violation wins, in source order. -/
def Enforcer.validate (e : Enforcer) (params : PolicyParameters) : Except PolicyError Unit :=
  if e.modes ≠ [] ∧ params.mode ∉ e.modes then .error .modeNotPermitted
  else if e.aeads ≠ [] ∧ params.aead ∉ e.aeads then .error .aeadNotPermitted
  else if params.rotationWindow < e.cfg.minRotation then .error .belowMinimum
  else if e.cfg.maxRotation < params.rotationWindow then .error .exceedsMaximum
  else .ok ()

/-! ## Record session (`pkg/session/state/session.go`) -/

/-- `state.Role`: `RoleClient = 0`, `RoleServer = 1`.  The Go type is a
`uint8`; only these two values are constructible through `NewSession`'s role
check, so the model carries just the two valid roles. -/
inductive Role where
  | client
  | server
deriving DecidableEq

/-- `Role.peer`. -/
def Role.peer : Role → Role
  | .client => .server
  | .server => .client

/-- Numeric value of a role, as written by `computeNonce` (`byte(role)`). -/
def Role.byteVal : Role → Nat
  | .client => 0
  | .server => 1

/-- `binary.BigEndian.PutUint64`. -/
def u64be (n : Nat) : Bytes :=
  [n / 2 ^ 56 % 256, n / 2 ^ 48 % 256, n / 2 ^ 40 % 256, n / 2 ^ 32 % 256,
   n / 2 ^ 24 % 256, n / 2 ^ 16 % 256, n / 2 ^ 8 % 256, n % 256]

/-- `computeNonce`: the first 24 bytes of the BLAKE3 keyed hash (key
`sessionID`) of `u64_be(seq) || byte(role)`.  `b3keyed` is the keyed BLAKE3
XOF of the external library, a parameter of the model. -/
def computeNonce (b3keyed : Bytes → Bytes → Bytes) (sessionID : Bytes) (seq : Nat)
    (role : Role) : Bytes :=
  (b3keyed sessionID (u64be seq ++ [role.byteVal])).take 24

/-- Go `map[string]string`, modelled as an association list with distinct
keys (a Go map cannot hold a key twice). -/
abbrev Metadata := List (String × String)

/-- Value stored under key `k` (the Go map lookup). -/
def mdLookup (md : Metadata) (k : String) : String :=
  match md.find? (fun p => p.1 = k) with
  | some p => p.2
  | none => ""

/-- `metadataAAD`: `"meta:v1;"` for empty metadata, otherwise the keys in
sorted order each contributing `k "=" v ";"`. -/
def metadataAAD (md : Metadata) : String :=
  if md = [] then "meta:v1;"
  else
    let keys := (md.map Prod.fst).mergeSort (fun a b => a ≤ b)
    keys.foldl (fun acc k => acc ++ k ++ "=" ++ mdLookup md k ++ ";") "meta:v1;"

/-- `copyMap`: value copy of the metadata (nil for an empty map; both are the
empty list here). -/
def copyMap (md : Metadata) : Metadata :=
  if md = [] then [] else md

/-- The `cipherAEAD` interface of `session.go`: `Seal` and `Open` against a
fixed key.  `Open` returning `none` is the library's authentication error. -/
structure CipherAEAD where
  sealOp : Bytes → Bytes → String → Bytes
  openOp : Bytes → Bytes → String → Option Bytes

/-- `state.Envelope`. -/
structure Envelope where
  ciphertext : Bytes
  nonce : Bytes
  sequence : Nat
  epoch : Nat
  metadata : Metadata

/-- `scheduler.Keys`, the derived symmetric materials (the `package
scheduler` source sits in the concatenated file
src/pkg/crypto/sign/dilithium.go).  Timestamps are Int nanoseconds. -/
structure Keys where
  sessionID : Bytes
  clientToServer : Bytes
  serverToClient : Bytes
  exporterSecret : Bytes
  transcriptHash : Bytes
  sharedSecret : Bytes
  establishedAt : Int
  nextRotation : Int
deriving DecidableEq

/-- `state.SessionConfig`.  `replayDepth` is `Replay.Depth`. -/
structure SessionConfig where
  role : Role
  mode : String
  aead : String
  keys : Keys
  rotation : RotationConfig
  replayDepth : Nat
  policy : Option Enforcer
  epoch : Nat

/-- `state.Session` (mutable state made explicit). -/
structure Session where
  role : Role
  mode : String
  aeadName : String
  sessionID : Bytes
  sendCipher : CipherAEAD
  recvCipher : CipherAEAD
  sendSeq : Nat
  rotation : RotationManager
  recvWindow : Window
  established : Int

/-- Construction failures of `NewSession` and `buildCiphers`. -/
inductive SessionError where
  | policyViolation (e : PolicyError)
  | badKeyLength
  | unsupportedAEAD
deriving DecidableEq

/-- `directionalKeys`: client sends with `ClientToServer`, server with
`ServerToClient`. -/
def directionalKeys (role : Role) (keys : Keys) : Bytes × Bytes :=
  match role with
  | .client => (keys.clientToServer, keys.serverToClient)
  | .server => (keys.serverToClient, keys.clientToServer)

/-- `buildCiphers`: only `"xchacha20poly1305"` is supported;
`chacha20poly1305.NewX` fails exactly when a key is not 32 bytes.  `newX` is
the external cipher constructor, a parameter of the model. -/
def buildCiphers (newX : Bytes → CipherAEAD) (name : String) (sendKey recvKey : Bytes) :
    Except SessionError (CipherAEAD × CipherAEAD) :=
  if name = "xchacha20poly1305" then
    if sendKey.length = 32 then
      if recvKey.length = 32 then .ok (newX sendKey, newX recvKey)
      else .error .badKeyLength
    else .error .badKeyLength
  else .error .unsupportedAEAD

/-- Default of the session mode: `"strict"` when unset. -/
def sessionModeDefault (m : String) : String := if m = "" then "strict" else m

/-- Default of the session AEAD name: `"xchacha20poly1305"` when unset. -/
def sessionAEADDefault (a : String) : String :=
  if a = "" then "xchacha20poly1305" else a

/-- The `NextRotation - EstablishedAt` window `NewSession` hands to the
policy check. -/
def sessionRotationWindow (cfg : SessionConfig) : Int :=
  cfg.keys.nextRotation - cfg.keys.establishedAt

/-- The optional policy validation step of `NewSession`. -/
def sessionPolicyCheck (cfg : SessionConfig) : Except SessionError Unit :=
  match cfg.policy with
  | none => .ok ()
  | some enf =>
    match enf.validate
        ⟨sessionModeDefault cfg.mode, sessionAEADDefault cfg.aead,
         sessionRotationWindow cfg⟩ with
    | .ok _ => .ok ()
    | .error e => .error (.policyViolation e)

/-- The rotation config `NewSession` passes to `rotation.New`: the interval
falls back to the key window, then the configured interval, then 15
minutes. -/
def sessionRotationCfg (cfg : SessionConfig) : RotationConfig :=
  let interval1 :=
    if sessionRotationWindow cfg ≤ 0 then cfg.rotation.interval
    else sessionRotationWindow cfg
  let interval2 := if interval1 ≤ 0 then 900000000000 else interval1
  if cfg.rotation.interval ≤ 0 then { cfg.rotation with interval := interval2 }
  else cfg.rotation

/-- `NewSession`: mode and AEAD defaults, optional policy validation,
directional keys, cipher construction, replay window and rotation manager
with the interval fallback chain. -/
def newSession (newX : Bytes → CipherAEAD) (cfg : SessionConfig) :
    Except SessionError Session :=
  match sessionPolicyCheck cfg with
  | .error e => .error e
  | .ok _ =>
    match buildCiphers newX (sessionAEADDefault cfg.aead)
        (directionalKeys cfg.role cfg.keys).1 (directionalKeys cfg.role cfg.keys).2 with
    | .error e => .error e
    | .ok ciphers =>
      .ok { role := cfg.role, mode := sessionModeDefault cfg.mode,
            aeadName := sessionAEADDefault cfg.aead,
            sessionID := cfg.keys.sessionID,
            sendCipher := ciphers.1, recvCipher := ciphers.2,
            sendSeq := 0,
            rotation := rotationNew (sessionRotationCfg cfg) cfg.keys.establishedAt cfg.epoch,
            recvWindow := replayNew cfg.replayDepth,
            established := cfg.keys.establishedAt }

/-- `Session.Encrypt`: pre-increment the (wrapping `uint64`) send counter,
derive the nonce from `(sessionID, seq, own role)`, record a packet with the
rotation manager, seal, and emit the envelope.  The Go function's error
result is always nil. -/
def Session.encrypt (b3keyed : Bytes → Bytes → Bytes) (s : Session) (plaintext : Bytes)
    (metadata : Metadata) (now : Int) : Envelope × Bool × Session :=
  let metaCopy := copyMap metadata
  let aad := metadataAAD metaCopy
  let seq := (s.sendSeq + 1) % u64Mod
  let nonce := computeNonce b3keyed s.sessionID seq s.role
  let rec1 := s.rotation.record now
  let ciphertext := s.sendCipher.sealOp nonce plaintext aad
  ({ ciphertext := ciphertext, nonce := nonce, sequence := seq,
     epoch := rec1.2.nextEpoch, metadata := metaCopy },
   rec1.1,
   { s with sendSeq := seq, rotation := rec1.2 })

/-- Failures of `Session.Decrypt`, in source order: the `sequence == 0`
guard, the replay window error, the nonce mismatch, and the AEAD open
failure. -/
inductive DecryptError where
  | seqInvalid
  | replay (e : ReplayError)
  | nonceMismatch
  | aeadFailure
deriving DecidableEq

/-- `Session.Decrypt`: reject sequence 0, pass the sequence through the
replay window (recording it), recompute the expected nonce with the peer
role, compare when the envelope carries a nonce, then open with the locally
computed nonce.  The returned session carries the updated window even when a
later step fails. -/
def Session.decrypt (b3keyed : Bytes → Bytes → Bytes) (s : Session) (env : Envelope)
    (now : Int) : Except DecryptError (Bytes × Bool) × Session :=
  if env.sequence = 0 then (.error .seqInvalid, s)
  else
    match s.recvWindow.accept env.sequence with
    | .error e => (.error (.replay e), s)
    | .ok w =>
      let s1 := { s with recvWindow := w }
      let expected := computeNonce b3keyed s.sessionID env.sequence s.role.peer
      if env.nonce ≠ [] ∧ env.nonce ≠ expected then (.error .nonceMismatch, s1)
      else
        match s.recvCipher.openOp expected env.ciphertext (metadataAAD env.metadata) with
        | none => (.error .aeadFailure, s1)
        | some plaintext => (.ok (plaintext, s1.rotation.shouldRotateLocked now), s1)

/-! ## Transcript accumulator (`pkg/session/transcript/transcript.go`)

The Go accumulator feeds `"domain:" || domain` and then, per append,
`label || u64_be(len(serialized)) || serialized` into an incremental BLAKE3
hasher; `Snapshot` clones the hasher and finalises.  The digest is therefore a
pure function of the concatenated byte stream, which the model keeps
explicitly; the hash itself is the external library, a parameter. -/

/-- Bytes of a string.  Handshake strings are ASCII, so code points are
bytes. -/
def strBytes (s : String) : Bytes := s.data.map Char.toNat

/-- The only failure of `Accumulator.Append` reachable in the model: the
empty-label guard (the Go `json.Marshal` step is performed by the caller
here, via the serialisation parameters of the handshake). -/
inductive TranscriptError where
  | labelRequired
deriving DecidableEq

/-- `transcript.Accumulator`: the domain and the appended
`(label, serialized)` frames. -/
structure Accumulator where
  domain : String
  frames : List (String × Bytes)
deriving DecidableEq

/-- `transcript.New`. -/
def transcriptNew (domain : String) : Accumulator :=
  { domain := domain, frames := [] }

/-- `Accumulator.Append` on already-serialised data. -/
def Accumulator.append (a : Accumulator) (label : String) (serialized : Bytes) :
    Except TranscriptError Accumulator :=
  if label = "" then .error .labelRequired
  else .ok { a with frames := a.frames ++ [(label, serialized)] }

/-- Byte contribution of one frame: `label || u64_be(len) || serialized`. -/
def frameBytes (f : String × Bytes) : Bytes :=
  strBytes f.1 ++ u64be f.2.length ++ f.2

/-- The byte stream the accumulator has fed to its hasher. -/
def Accumulator.stream (a : Accumulator) : Bytes :=
  strBytes "domain:" ++ strBytes a.domain ++ (a.frames.map frameBytes).flatten

/-- `Accumulator.Snapshot`: hash of the accumulated stream (`b3hash` is the
external plain BLAKE3 hash). -/
def Accumulator.snapshot (b3hash : Bytes → Bytes) (a : Accumulator) : Bytes :=
  b3hash a.stream

/-! ## Key scheduler (`pkg/crypto/scheduler`, whose source is the `package
scheduler` section of the concatenated file
src/pkg/crypto/sign/dilithium.go) -/

/-- `scheduler.Config` (key sizes are Go `int`, durations Int
nanoseconds). -/
structure SchedulerConfig where
  mode : String
  rotationInterval : Int
  clientKeySize : Int
  serverKeySize : Int
  exporterSize : Int
  salt : Bytes
deriving DecidableEq

/-- `buildInfo`: `"qsafe-handshake" || 0x00 || mode || 0x00 ||
transcript_hash`, with the mode defaulting to `"strict"` when empty. -/
def buildInfo (mode : String) (transcriptHash : Bytes) : Bytes :=
  let mode1 := if mode = "" then "strict" else mode
  strBytes "qsafe-handshake" ++ [0] ++ strBytes mode1 ++ [0] ++ transcriptHash

/-- `deriveSessionID`: `BLAKE3("qsafe-session-id" || shared_secret ||
transcript_hash)` (`b3hash` is the external plain BLAKE3 hash). -/
def deriveSessionID (b3hash : Bytes → Bytes) (transcriptHash sharedSecret : Bytes) : Bytes :=
  b3hash (strBytes "qsafe-session-id" ++ sharedSecret ++ transcriptHash)

/-- `scheduler.Derive`: validate the inputs non-empty, default non-positive
key sizes to 32 and a non-positive rotation interval to 15 minutes, then read
the client, server and exporter keys in order from the HKDF-SHA3-512 output
stream.  `hkdf` (salt, IKM, info ↦ output stream) is the external primitive;
each `readFull` fails exactly when the stream is exhausted before the
requested bytes, which the three length guards mirror.  `EstablishedAt` is
`time.Now().UTC()`, the explicit `now`. -/
def schedulerDerive (hkdf : Bytes → Bytes → Bytes → Bytes) (b3hash : Bytes → Bytes)
    (sharedSecret transcriptHash : Bytes) (cfg : SchedulerConfig) (now : Int) :
    Except String Keys :=
  if sharedSecret = [] then .error "scheduler: shared secret required"
  else if transcriptHash = [] then .error "scheduler: transcript hash required"
  else
    let clientKeySize := (if cfg.clientKeySize ≤ 0 then 32 else cfg.clientKeySize).toNat
    let serverKeySize := (if cfg.serverKeySize ≤ 0 then 32 else cfg.serverKeySize).toNat
    let exporterSize := (if cfg.exporterSize ≤ 0 then 32 else cfg.exporterSize).toNat
    let rotationInterval :=
      if cfg.rotationInterval ≤ 0 then 900000000000 else cfg.rotationInterval
    let okm := hkdf cfg.salt sharedSecret (buildInfo cfg.mode transcriptHash)
    if okm.length < clientKeySize then .error "scheduler: derive client key: EOF"
    else if okm.length < clientKeySize + serverKeySize then
      .error "scheduler: derive server key: EOF"
    else if okm.length < clientKeySize + serverKeySize + exporterSize then
      .error "scheduler: derive exporter: EOF"
    else
      .ok { sessionID := deriveSessionID b3hash transcriptHash sharedSecret,
            clientToServer := okm.take clientKeySize,
            serverToClient := (okm.drop clientKeySize).take serverKeySize,
            exporterSecret := ((okm.drop clientKeySize).drop serverKeySize).take exporterSize,
            transcriptHash := transcriptHash,
            sharedSecret := sharedSecret,
            establishedAt := now,
            nextRotation := now + rotationInterval }

/-- `scheduler.Confirm`: reject an empty key or transcript hash, then return
`BLAKE3(key || transcript_hash)`.  (The `hasher.Write` error path cannot fire
for BLAKE3, whose `Write` never errors.) -/
def schedulerConfirm (b3hash : Bytes → Bytes) (key transcriptHash : Bytes) :
    Except String Bytes :=
  if key = [] then .error "scheduler: confirmation key empty"
  else if transcriptHash = [] then .error "scheduler: transcript hash empty"
  else .ok (b3hash (key ++ transcriptHash))

/-! ## Handshake (`pkg/session/state`, src/unnamed/part_004) -/

/-- `state.CapabilitySet`. -/
structure CapabilitySet where
  pqKem : String
  pqSigs : String
  aead : String
  transports : List String
deriving DecidableEq

/-- `state.ClientInit` (timestamps as Int nanoseconds). -/
structure ClientInit where
  version : Nat
  mode : String
  timestamp : Int
  nonce : Bytes
  ciphertext : Bytes
  capabilities : CapabilitySet
deriving DecidableEq

/-- `state.ServerPayload`. -/
structure ServerPayload where
  version : Nat
  mode : String
  timestamp : Int
  nonce : Bytes
  rotationSecs : Nat
  capabilities : CapabilitySet
deriving DecidableEq

/-- `state.ServerResponse`. -/
structure ServerResponse where
  payload : ServerPayload
  transcriptHash : Bytes
  signature : Bytes
  confirmation : Bytes
deriving DecidableEq

/-- The map built by `initWithoutCiphertext`: the client init with the raw
ciphertext replaced by its BLAKE3 commitment. -/
structure ClientInitView where
  version : Nat
  mode : String
  timestamp : Int
  nonce : Bytes
  capabilities : CapabilitySet
  ciphertextHash : Bytes
deriving DecidableEq

/-- `initWithoutCiphertext`: `ciphertext_hash = BLAKE3(ciphertext)` via
`hashBytes`. -/
def initWithoutCiphertext (b3hash : Bytes → Bytes) (init : ClientInit) : ClientInitView :=
  { version := init.version, mode := init.mode, timestamp := init.timestamp,
    nonce := init.nonce, capabilities := init.capabilities,
    ciphertextHash := b3hash init.ciphertext }

/-- External primitives of the handshake, all outside this repository: the
plain and keyed BLAKE3 hashes, HKDF, the canonical JSON serialisers used by
the transcript, the KEM (encapsulation takes its random coins explicitly) and
the signature scheme (`verify` is the clean boolean of the contract). -/
structure Prims where
  b3hash : Bytes → Bytes
  hkdf : Bytes → Bytes → Bytes → Bytes
  marshalCI : ClientInitView → Bytes
  marshalSP : ServerPayload → Bytes
  encaps : Bytes → Bytes → Except String (Bytes × Bytes)
  decaps : Bytes → Bytes → Except String Bytes
  sign : Bytes → Bytes → Except String Bytes
  verify : Bytes → Bytes → Bytes → Bool

/-- `state.ClientConfig` (the KEM suite and signature scheme live in
`Prims`). -/
structure ClientConfig where
  mode : String
  serverPublicKey : Bytes
  sched : SchedulerConfig
  serverSignatureKey : Bytes
  capabilities : CapabilitySet
deriving DecidableEq

/-- `state.ServerConfig`. -/
structure ServerConfig where
  mode : String
  kemPublic : Bytes
  kemPrivate : Bytes
  sigPublic : Bytes
  sigPrivate : Bytes
  capabilities : CapabilitySet
  sched : SchedulerConfig
deriving DecidableEq

/-- `state.PendingClient`. -/
structure PendingClient where
  transcript : Accumulator
  sharedSecret : Bytes
  cfg : ClientConfig
  clientNonce : Bytes
deriving DecidableEq

/-- Handshake failures, one per distinct exit of the Go functions. -/
inductive HandshakeError where
  | kemFailure
  | appendFailed
  | modeMismatch
  | transcriptMismatch
  | signatureInvalid
  | deriveFailed
  | signFailed
  | confirmFailed
  | confirmationMismatch
deriving DecidableEq

/-- `constantTimeEqual`: length check, then OR-accumulated XOR of the
bytes. -/
def constantTimeEqual (a b : Bytes) : Bool :=
  if a.length ≠ b.length then false
  else decide ((a.zip b).foldl (fun acc p => acc ||| (p.1 ^^^ p.2)) 0 = 0)

/-- `Client.Initiate`: fresh transcript with domain `"qsafe-handshake"`,
encapsulate against the server KEM key, build `ClientInit`, append its
commitment form under `"client_init"`, and retain the pending state.  The
32-byte client nonce and the KEM coins are explicit inputs standing for the
random source. -/
def clientInitiate (P : Prims) (cfg : ClientConfig) (clientNonce coins : Bytes)
    (ts : Int) : Except HandshakeError (ClientInit × PendingClient) :=
  let trans := transcriptNew "qsafe-handshake"
  match P.encaps cfg.serverPublicKey coins with
  | .error _ => .error .kemFailure
  | .ok ctss =>
    let init : ClientInit :=
      { version := 1, mode := cfg.mode, timestamp := ts, nonce := clientNonce,
        ciphertext := ctss.1, capabilities := cfg.capabilities }
    match trans.append "client_init" (P.marshalCI (initWithoutCiphertext P.b3hash init)) with
    | .error _ => .error .appendFailed
    | .ok trans1 =>
      .ok (init, { transcript := trans1, sharedSecret := ctss.2, cfg := cfg,
                   clientNonce := clientNonce })

/-- `Server.Accept`: append the client init commitment, check the mode,
decapsulate, build and append the server payload, snapshot the transcript,
derive keys, sign the digest and attach the confirmation tag.  The server
nonce and both timestamps are explicit inputs.  `rotationSecs` models
`uint32(RotationInterval.Seconds())` as truncating integer division. -/
def serverAccept (P : Prims) (cfg : ServerConfig) (init : ClientInit)
    (serverNonce : Bytes) (ts now : Int) :
    Except HandshakeError (ServerResponse × Keys) :=
  let trans := transcriptNew "qsafe-handshake"
  match trans.append "client_init" (P.marshalCI (initWithoutCiphertext P.b3hash init)) with
  | .error _ => .error .appendFailed
  | .ok trans1 =>
    if init.mode ≠ cfg.mode then .error .modeMismatch
    else
      match P.decaps cfg.kemPrivate init.ciphertext with
      | .error _ => .error .kemFailure
      | .ok shared =>
        let payload : ServerPayload :=
          { version := 1, mode := cfg.mode, timestamp := ts, nonce := serverNonce,
            rotationSecs := (cfg.sched.rotationInterval / 1000000000).toNat % 2 ^ 32,
            capabilities := cfg.capabilities }
        match trans1.append "server_payload" (P.marshalSP payload) with
        | .error _ => .error .appendFailed
        | .ok trans2 =>
          let transHash := trans2.snapshot P.b3hash
          match schedulerDerive P.hkdf P.b3hash shared transHash cfg.sched now with
          | .error _ => .error .deriveFailed
          | .ok keys =>
            match P.sign cfg.sigPrivate transHash with
            | .error _ => .error .signFailed
            | .ok sig =>
              match schedulerConfirm P.b3hash keys.serverToClient transHash with
              | .error _ => .error .confirmFailed
              | .ok confirm =>
                .ok ({ payload := payload, transcriptHash := transHash, signature := sig,
                       confirmation := confirm },
                     keys)

/-- `PendingClient.Finish`: check the payload mode, extend the retained
transcript with the server payload, compare the local digest to the reported
one in constant time, verify the signature, derive keys from the retained
shared secret, and check the confirmation tag. -/
def pendingFinish (P : Prims) (p : PendingClient) (resp : ServerResponse)
    (now : Int) : Except HandshakeError Keys :=
  if resp.payload.mode ≠ p.cfg.mode then .error .modeMismatch
  else
    match p.transcript.append "server_payload" (P.marshalSP resp.payload) with
    | .error _ => .error .appendFailed
    | .ok trans1 =>
      let calculated := trans1.snapshot P.b3hash
      if ¬ constantTimeEqual calculated resp.transcriptHash then .error .transcriptMismatch
      else if ¬ P.verify p.cfg.serverSignatureKey resp.transcriptHash resp.signature then
        .error .signatureInvalid
      else
        match schedulerDerive P.hkdf P.b3hash p.sharedSecret resp.transcriptHash p.cfg.sched now with
        | .error _ => .error .deriveFailed
        | .ok keys =>
          match schedulerConfirm P.b3hash keys.serverToClient resp.transcriptHash with
          | .error _ => .error .confirmFailed
          | .ok confirm =>
            if ¬ constantTimeEqual confirm resp.confirmation then .error .confirmationMismatch
            else .ok keys

/-! ## Helper lemmas -/

instance {ε α : Type} [DecidableEq ε] [DecidableEq α] : DecidableEq (Except ε α) := fun a b =>
  match a, b with
  | .error e1, .error e2 =>
    if h : e1 = e2 then isTrue (congrArg Except.error h)
    else isFalse (fun hc => h (Except.error.inj hc))
  | .error _, .ok _ => isFalse (fun hc => Except.noConfusion hc)
  | .ok _, .error _ => isFalse (fun hc => Except.noConfusion hc)
  | .ok v1, .ok v2 =>
    if h : v1 = v2 then isTrue (congrArg Except.ok h)
    else isFalse (fun hc => h (Except.ok.inj hc))

/-- Pruning with positive depth keeps exactly the seen entries above
`highest - depth`. -/
theorem prune_seen (d h : Nat) (seen : List Nat) (hd : 0 < d) :
    Window.prune ⟨d, h, seen⟩ = ⟨d, h, seen.filter (fun x => decide (h - d < x))⟩ := by
  rw [Window.prune]
  simp only
  rw [if_neg (by omega)]
  congr 1
  apply List.filter_congr
  intro x _
  rcases Nat.lt_or_ge d h with hdh | hdh
  · rw [if_pos hdh]
    apply decide_eq_decide.mpr
    omega
  · rw [if_neg (by omega)]
    apply decide_eq_decide.mpr
    omega

/-- An accepted sequence is nonzero. -/
theorem accept_ok_pos {w : Window} {s : Nat} {w1 : Window}
    (h : w.accept s = .ok w1) : s ≠ 0 := by
  intro h0
  subst h0
  simp [Window.accept] at h

/-- Shape of the window state after a successful accept: depth preserved, the
sequence recorded, at most the new highest, and within the live range. -/
theorem accept_ok_fields {w : Window} {s : Nat} {w1 : Window} (hd : 0 < w.depth)
    (h : w.accept s = .ok w1) :
    w1.depth = w.depth ∧ s ∈ w1.seen ∧ s ≤ w1.highest ∧ w1.highest ≠ 0 ∧
      w1.highest - s < w.depth := by
  have hs : s ≠ 0 := accept_ok_pos h
  rw [Window.accept, if_neg hs] at h
  by_cases hh : w.highest = 0
  · rw [if_pos hh] at h
    cases h
    simp
    omega
  · rw [if_neg hh] at h
    by_cases hlt : w.highest < s
    · rw [if_pos hlt] at h
      rw [show ({ w with highest := s, seen := w.seen.insert s } : Window) = ⟨w.depth, s, w.seen.insert s⟩ from rfl, prune_seen w.depth s (w.seen.insert s) hd] at h
      cases h
      dsimp only
      refine ⟨rfl, ?_, le_refl s, by omega, by omega⟩
      simp [List.mem_filter, List.mem_insert_iff]
      omega
    · rw [if_neg hlt] at h
      by_cases hst : w.depth ≤ w.highest - s
      · rw [if_pos hst] at h
        cases h
      · rw [if_neg hst] at h
        by_cases hmem : s ∈ w.seen
        · rw [if_pos hmem] at h
          cases h
        · rw [if_neg hmem] at h
          cases h
          dsimp only
          refine ⟨rfl, by simp, by omega, hh, by omega⟩

/-- Re-accepting a just-accepted sequence fails with the duplicate error
(assuming a positive window depth, as `replay.New` always provides). -/
theorem accept_ok_reaccept {w : Window} {s : Nat} {w1 : Window} (hd : 0 < w.depth)
    (h : w.accept s = .ok w1) : w1.accept s = .error .duplicate := by
  obtain ⟨hdep, hmem, hle, hne, hrange⟩ := accept_ok_fields hd h
  rw [Window.accept, if_neg (accept_ok_pos h), if_neg hne,
    if_neg (by omega : ¬ w1.highest < s), if_neg (by omega : ¬ w1.depth ≤ w1.highest - s),
    if_pos hmem]

/-- After the replay window has accepted the sequence, the session returned by
`Decrypt` carries the updated window no matter how the rest of the function
exits. -/
theorem decrypt_snd_of_accept (b3 : Bytes → Bytes → Bytes) (s : Session) (env : Envelope)
    (now : Int) (w : Window) (h0 : env.sequence ≠ 0)
    (ha : s.recvWindow.accept env.sequence = .ok w) :
    (s.decrypt b3 env now).2 = { s with recvWindow := w } := by
  rw [Session.decrypt, if_neg h0, ha]
  simp only
  split
  · rfl
  · split <;> rfl

/-- The peer of the peer is the original role. -/
theorem Role.peer_peer (r : Role) : r.peer.peer = r := by
  cases r <;> rfl

/-- The peer's receive key is the local send key. -/
theorem directionalKeys_peer_snd (r : Role) (k : Keys) :
    (directionalKeys r.peer k).2 = (directionalKeys r k).1 := by
  cases r <;> rfl

/-! ## Claim C4 (replay window algorithm) -/

/-- Claim C4: `Window.Accept` implements the spec's reference algorithm —
sequence 0 is invalid; the first accepted sequence sets `highest`; a sequence
above `highest` is accepted, becomes the new highest and prunes entries at or
below `highest - D`; a lag of at least `D` is stale; a seen sequence is a
duplicate; any other in-window sequence is accepted and recorded; and
`replay.New` defaults the depth to 2048. -/
theorem window_accept_matches_spec :
    (∀ w : Window, w.accept 0 = .error .seqZero) ∧
    (∀ (w : Window) (s : Nat), w.highest = 0 → s ≠ 0 →
      w.accept s = .ok ⟨w.depth, s, w.seen.insert s⟩) ∧
    (∀ (w : Window) (s : Nat), 0 < w.depth → w.highest ≠ 0 → w.highest < s →
      w.accept s = .ok ⟨w.depth, s, (w.seen.insert s).filter (fun x => decide (s - w.depth < x))⟩) ∧
    (∀ (w : Window) (s : Nat), s ≠ 0 → w.highest ≠ 0 → ¬ w.highest < s →
      w.depth ≤ w.highest - s → w.accept s = .error .stale) ∧
    (∀ (w : Window) (s : Nat), s ≠ 0 → w.highest ≠ 0 → ¬ w.highest < s →
      w.highest - s < w.depth → s ∈ w.seen → w.accept s = .error .duplicate) ∧
    (∀ (w : Window) (s : Nat), s ≠ 0 → w.highest ≠ 0 → ¬ w.highest < s →
      w.highest - s < w.depth → s ∉ w.seen →
      w.accept s = .ok ⟨w.depth, w.highest, w.seen.insert s⟩) ∧
    (replayNew 0).depth = 2048 ∧
    (∀ d : Nat, d ≠ 0 → (replayNew d).depth = d) := by
  refine ⟨?_, ?_, ?_, ?_, ?_, ?_, rfl, ?_⟩
  · intro w
    rw [Window.accept, if_pos rfl]
  · intro w s hh hs
    rw [Window.accept, if_neg hs, if_pos hh]
  · intro w s hd hh hlt
    rw [Window.accept, if_neg (by omega : ¬ s = 0), if_neg hh, if_pos hlt]
    rw [show ({ w with highest := s, seen := w.seen.insert s } : Window) = ⟨w.depth, s, w.seen.insert s⟩ from rfl, prune_seen w.depth s (w.seen.insert s) hd]
  · intro w s hs hh hlt hst
    rw [Window.accept, if_neg hs, if_neg hh, if_neg hlt, if_pos hst]
  · intro w s hs hh hlt hst hmem
    rw [Window.accept, if_neg hs, if_neg hh, if_neg hlt, if_neg (by omega), if_pos hmem]
  · intro w s hs hh hlt hst hmem
    rw [Window.accept, if_neg hs, if_neg hh, if_neg hlt, if_neg (by omega), if_neg hmem]
  · intro d hd
    rw [replayNew, if_neg hd]

/-- Claim C4 witness: the clauses of `window_accept_matches_spec` evaluated on
the concrete window of depth 4 holding `{1, 2, 5}` with highest 5. -/
theorem window_accept_matches_spec_witness :
    Window.accept ⟨4, 5, [1, 2, 5]⟩ 7 = .ok ⟨4, 7, [7, 5]⟩ ∧
    Window.accept ⟨4, 5, [1, 2, 5]⟩ 1 = .error .stale ∧
    Window.accept ⟨4, 5, [1, 2, 5]⟩ 2 = .error .duplicate ∧
    Window.accept ⟨4, 5, [1, 2, 5]⟩ 3 = .ok ⟨4, 5, [3, 1, 2, 5]⟩ := by
  obtain ⟨h0, hfirst, hadv, hstale, hdup, hrec, hdef, hdep⟩ := window_accept_matches_spec
  refine ⟨?_, ?_, ?_, ?_⟩
  · rw [hadv ⟨4, 5, [1, 2, 5]⟩ 7 (by decide) (by decide) (by decide)]
    decide
  · exact hstale ⟨4, 5, [1, 2, 5]⟩ 1 (by decide) (by decide) (by decide) (by decide)
  · exact hdup ⟨4, 5, [1, 2, 5]⟩ 2 (by decide) (by decide) (by decide) (by decide) (by decide)
  · rw [hrec ⟨4, 5, [1, 2, 5]⟩ 3 (by decide) (by decide) (by decide) (by decide) (by decide)]
    decide

/-! ## Claim C7 (rotation manager) -/

/-- Claim C7: `should_rotate(now)` is true iff the packet threshold is
configured and reached, or `now` is at or past `start + (interval - skew)`
with the skew treated as 0 when `skew >= interval`; `Record` increments the
packet counter (a wrapping `uint64`) and returns the same check on the
updated state; `rotation.New` defaults the interval to 15 minutes and the
skew to 5 seconds when non-positive. -/
theorem rotation_manager_spec :
    (∀ (m : RotationManager) (now : Int),
      m.shouldRotateLocked now = true ↔
        ((0 < m.cfg.maxPackets ∧ m.cfg.maxPackets ≤ m.packets) ∨
         m.start + (m.cfg.interval - (if m.cfg.interval ≤ m.cfg.skew then 0 else m.cfg.skew))
           ≤ now)) ∧
    (∀ (m : RotationManager) (now : Int),
      m.record now =
        (RotationManager.shouldRotateLocked ⟨m.cfg, m.start, (m.packets + 1) % u64Mod, m.epoch⟩ now,
         ⟨m.cfg, m.start, (m.packets + 1) % u64Mod, m.epoch⟩)) ∧
    (∀ (cfg : RotationConfig) (st : Int) (ep : Nat),
      (rotationNew cfg st ep).cfg.interval
          = (if cfg.interval ≤ 0 then 900000000000 else cfg.interval) ∧
      (rotationNew cfg st ep).cfg.skew = (if cfg.skew ≤ 0 then 5000000000 else cfg.skew) ∧
      (rotationNew cfg st ep).cfg.maxPackets = cfg.maxPackets ∧
      (rotationNew cfg st ep).start = st ∧
      (rotationNew cfg st ep).packets = 0 ∧
      (rotationNew cfg st ep).epoch = ep) := by
  refine ⟨?_, ?_, ?_⟩
  · intro m now
    rw [RotationManager.shouldRotateLocked]
    split
    · rename_i h
      simp [h]
    · rename_i h
      simp only [decide_eq_true_eq]
      constructor
      · intro hle
        exact Or.inr hle
      · intro hor
        rcases hor with hp | hle
        · exact absurd hp h
        · exact hle
  · intro m now
    rfl
  · intro cfg st ep
    simp only [rotationNew]
    split_ifs <;> simp_all

/-! ## Claim C10 (policy enforcer) -/

/-- Claim C10: with an empty `AllowedModes` list no mode is ever rejected,
with an empty `AllowedAEAD` list no AEAD name is ever rejected; with both
empty `Validate` succeeds exactly when the rotation window lies between the
effective bounds; and `policy.New` replaces non-positive `MinRotation` and
`MaxRotation` by 5 minutes and 60 minutes, so the bounds are always
positive. -/
theorem policy_enforcer_spec :
    (∀ (cfg : PolicyConfig) (p : PolicyParameters), cfg.allowedModes = [] →
      (policyNew cfg).validate p ≠ .error .modeNotPermitted) ∧
    (∀ (cfg : PolicyConfig) (p : PolicyParameters), cfg.allowedAEAD = [] →
      (policyNew cfg).validate p ≠ .error .aeadNotPermitted) ∧
    (∀ (cfg : PolicyConfig) (p : PolicyParameters),
      cfg.allowedModes = [] → cfg.allowedAEAD = [] →
      ((policyNew cfg).validate p = .ok () ↔
        ((policyNew cfg).cfg.minRotation ≤ p.rotationWindow ∧
         p.rotationWindow ≤ (policyNew cfg).cfg.maxRotation))) ∧
    (∀ cfg : PolicyConfig,
      (policyNew cfg).cfg.minRotation
          = (if cfg.minRotation ≤ 0 then 300000000000 else cfg.minRotation) ∧
      (policyNew cfg).cfg.maxRotation
          = (if cfg.maxRotation ≤ 0 then 3600000000000 else cfg.maxRotation) ∧
      0 < (policyNew cfg).cfg.minRotation ∧ 0 < (policyNew cfg).cfg.maxRotation) := by
  have hfields : ∀ cfg : PolicyConfig,
      (policyNew cfg).modes = cfg.allowedModes ∧
      (policyNew cfg).aeads = cfg.allowedAEAD ∧
      (policyNew cfg).cfg.minRotation
          = (if cfg.minRotation ≤ 0 then 300000000000 else cfg.minRotation) ∧
      (policyNew cfg).cfg.maxRotation
          = (if cfg.maxRotation ≤ 0 then 3600000000000 else cfg.maxRotation) := by
    intro cfg
    simp only [policyNew]
    split_ifs <;> simp_all
  refine ⟨?_, ?_, ?_, ?_⟩
  · intro cfg p hm hc
    obtain ⟨h1, -, -, -⟩ := hfields cfg
    rw [Enforcer.validate, h1, hm] at hc
    repeat' split at hc
    all_goals simp_all
  · intro cfg p ha hc
    obtain ⟨-, h2, -, -⟩ := hfields cfg
    rw [Enforcer.validate, h2, ha] at hc
    repeat' split at hc
    all_goals simp_all
  · intro cfg p hm ha
    obtain ⟨h1, h2, -, -⟩ := hfields cfg
    rw [Enforcer.validate, h1, h2, hm, ha]
    simp only [ne_eq, not_true_eq_false, false_and, if_false]
    constructor
    · intro hok
      have hmin : (policyNew cfg).cfg.minRotation ≤ p.rotationWindow := by
        by_contra hlt
        rw [if_pos (by omega)] at hok
        exact Except.noConfusion hok
      refine ⟨hmin, ?_⟩
      by_contra hlt
      rw [if_neg (by omega), if_pos (by omega)] at hok
      exact Except.noConfusion hok
    · intro hb
      rw [if_neg (by omega), if_neg (by omega)]
  · intro cfg
    obtain ⟨-, -, h3, h4⟩ := hfields cfg
    refine ⟨h3, h4, ?_, ?_⟩
    · rw [h3]
      split <;> omega
    · rw [h4]
      split <;> omega

/-- Claim C10 witness: an enforcer with no allowed-mode or allowed-AEAD
restrictions and unset rotation bounds accepts an exotic mode and AEAD inside
the default 5-to-60-minute window and reports the default bounds. -/
theorem policy_enforcer_spec_witness :
    (policyNew ⟨[], [], 0, 0⟩).validate ⟨"exotic-mode", "exotic-aead", 600000000000⟩ = .ok () ∧
    (policyNew ⟨[], [], 0, 0⟩).cfg.minRotation = 300000000000 ∧
    (policyNew ⟨[], [], 0, 0⟩).cfg.maxRotation = 3600000000000 := by
  obtain ⟨-, -, hiff, hdef⟩ := policy_enforcer_spec
  refine ⟨?_, ?_, ?_⟩
  · rw [(hiff ⟨[], [], 0, 0⟩ ⟨"exotic-mode", "exotic-aead", 600000000000⟩ rfl rfl)]
    obtain ⟨h3, h4, -, -⟩ := hdef ⟨[], [], 0, 0⟩
    rw [h3, h4]
    norm_num
  · exact (hdef ⟨[], [], 0, 0⟩).1.trans (by norm_num)
  · exact (hdef ⟨[], [], 0, 0⟩).2.1.trans (by norm_num)

/-- Once the replay window has accepted the sequence, `Decrypt` proceeds to
the nonce comparison and the AEAD open, carrying the updated window. -/
theorem decrypt_of_accept (b3 : Bytes → Bytes → Bytes) (s : Session) (env : Envelope)
    (now : Int) (w : Window) (h0 : env.sequence ≠ 0)
    (ha : s.recvWindow.accept env.sequence = .ok w) :
    s.decrypt b3 env now =
      (if env.nonce ≠ [] ∧ env.nonce ≠ computeNonce b3 s.sessionID env.sequence s.role.peer
       then (.error .nonceMismatch, { s with recvWindow := w })
       else
         match s.recvCipher.openOp (computeNonce b3 s.sessionID env.sequence s.role.peer)
             env.ciphertext (metadataAAD env.metadata) with
         | none => (.error .aeadFailure, { s with recvWindow := w })
         | some plaintext =>
           (.ok (plaintext, s.rotation.shouldRotateLocked now), { s with recvWindow := w })) := by
  rw [Session.decrypt, if_neg h0, ha]

/-! ## Claim C3 (replayed envelope is a duplicate) -/

/-- Claim C3: an envelope that decrypted successfully fails with the replay
duplicate error when delivered a second time (for any window of positive
depth, which `replay.New` guarantees). -/
theorem decrypt_replayed_envelope_duplicate
    (b3 : Bytes → Bytes → Bytes) (s : Session) (env : Envelope) (now now2 : Int)
    (pt : Bytes) (rot : Bool)
    (hd : 0 < s.recvWindow.depth)
    (h : (s.decrypt b3 env now).1 = .ok (pt, rot)) :
    (((s.decrypt b3 env now).2).decrypt b3 env now2).1 = .error (.replay .duplicate) := by
  by_cases h0 : env.sequence = 0
  · rw [Session.decrypt, if_pos h0] at h
    exact absurd h (by simp)
  · rcases ha : s.recvWindow.accept env.sequence with e | w
    · rw [Session.decrypt, if_neg h0, ha] at h
      exact absurd h (by simp)
    · rw [decrypt_snd_of_accept b3 s env now w h0 ha, Session.decrypt, if_neg h0]
      dsimp only
      rw [accept_ok_reaccept hd ha]

/-! ## Concrete instances used by the witnesses -/

/-- A concrete stand-in for the keyed BLAKE3 XOF. -/
def cxB3 : Bytes → Bytes → Bytes := fun _ _ => List.replicate 24 0

/-- A concrete AEAD whose open inverts its seal. -/
def cxCipher : CipherAEAD :=
  { sealOp := fun _ pt _ => pt, openOp := fun _ ct _ => some ct }

/-- A rotation manager freshly built from the zero config. -/
def cxManager : RotationManager := rotationNew ⟨0, 0, 0⟩ 0 0

/-- A freshly established responder-side session. -/
def cxSession : Session :=
  { role := .server, mode := "strict", aeadName := "xchacha20poly1305",
    sessionID := List.replicate 32 0, sendCipher := cxCipher, recvCipher := cxCipher,
    sendSeq := 0, rotation := cxManager, recvWindow := replayNew 0, established := 0 }

/-- A valid first envelope with no transported nonce. -/
def cxEnv : Envelope :=
  { ciphertext := [1, 2], nonce := [], sequence := 1, epoch := 0, metadata := [] }

/-- An envelope with sequence 1 whose transported nonce does not match the
derived one. -/
def cxEnvBadNonce : Envelope :=
  { ciphertext := [1, 2], nonce := [9, 9], sequence := 1, epoch := 0, metadata := [] }

/-- A valid envelope with sequence 2 and no transported nonce. -/
def cxEnv2 : Envelope :=
  { ciphertext := [7], nonce := [], sequence := 2, epoch := 0, metadata := [] }

/-- Claim C3 witness: the concrete session decrypts the first envelope, and a
second delivery of the same envelope is rejected as a replay duplicate. -/
theorem decrypt_replayed_envelope_duplicate_witness :
    ((cxSession.decrypt cxB3 cxEnv 0).2.decrypt cxB3 cxEnv 0).1
      = .error (.replay .duplicate) :=
  decrypt_replayed_envelope_duplicate cxB3 cxSession cxEnv 0 0 [1, 2] false
    (by decide) (by decide)

/-! ## Claim C5 (send sequence numbering) -/

/-- Session state after `n` successive `Encrypt` calls. -/
def encryptN (b3 : Bytes → Bytes → Bytes) (s : Session) (pt : Bytes) (md : Metadata)
    (now : Int) : Nat → Session
  | 0 => s
  | n + 1 => ((encryptN b3 s pt md now n).encrypt b3 pt md now).2.2

/-- The send counter after `n` encrypts is the initial counter plus `n`,
reduced modulo `2^64`. -/
theorem encryptN_sendSeq (b3 : Bytes → Bytes → Bytes) (s : Session) (pt : Bytes)
    (md : Metadata) (now : Int) (hs : s.sendSeq < u64Mod) (n : Nat) :
    (encryptN b3 s pt md now n).sendSeq = (s.sendSeq + n) % u64Mod := by
  induction n with
  | zero =>
    simpa using (Nat.mod_eq_of_lt hs).symm
  | succ n ih =>
    show (((encryptN b3 s pt md now n).encrypt b3 pt md now).2.2).sendSeq = _
    rw [Session.encrypt]
    dsimp only
    rw [ih]
    simp only [u64Mod]
    omega

/-- Claim C5 (amended): while the `uint64` send counter has not wrapped, the
`i`-th `Encrypt` call of a fresh session emits exactly sequence `i` — strictly
positive, strictly monotonic and contiguous from 1. -/
theorem encrypt_sequences_contiguous
    (b3 : Bytes → Bytes → Bytes) (s : Session) (pt : Bytes) (md : Metadata) (now : Int)
    (i : Nat) (hfresh : s.sendSeq = 0) (hi : i + 1 < u64Mod) :
    ((encryptN b3 s pt md now i).encrypt b3 pt md now).1.sequence = i + 1 := by
  have hs : s.sendSeq < u64Mod := by rw [hfresh]; norm_num [u64Mod]
  rw [Session.encrypt]
  dsimp only
  rw [encryptN_sendSeq b3 s pt md now hs i, hfresh]
  simp only [u64Mod] at hi ⊢
  omega

/-- An `Encrypt` call on a session whose send counter sits at `2^64 - 1`
emits sequence 0: the `uint64` pre-increment wraps. -/
theorem encrypt_wraps_aux (b3 : Bytes → Bytes → Bytes) (s : Session) (pt : Bytes)
    (md : Metadata) (now : Int) (h1 : s.sendSeq = u64Mod - 1) :
    (s.encrypt b3 pt md now).1.sequence = 0 := by
  rw [Session.encrypt]
  dsimp only
  rw [h1]
  simp only [u64Mod]
  omega

/-- Claim C5 counterexample: at the `2^64`-th call the send counter wraps and
the envelope carries sequence 0, which the claim asserts is never
produced. -/
theorem encrypt_sequence_wraps_to_zero :
    ((encryptN cxB3 cxSession [] [] 0 (u64Mod - 1)).encrypt cxB3 [] [] 0).1.sequence = 0 := by
  apply encrypt_wraps_aux
  rw [encryptN_sendSeq cxB3 cxSession [] [] 0 (by norm_num [cxSession, u64Mod]) (u64Mod - 1)]
  have h0 : cxSession.sendSeq = 0 := rfl
  rw [h0]
  simp only [u64Mod]
  omega

/-- Claim C5 witness: the third `Encrypt` call of the fresh concrete session
carries sequence 3. -/
theorem encrypt_sequences_contiguous_witness :
    ((encryptN cxB3 cxSession [] [] 0 2).encrypt cxB3 [] [] 0).1.sequence = 2 + 1 :=
  encrypt_sequences_contiguous cxB3 cxSession [] [] 0 2 rfl
    (by norm_num [u64Mod])

/-! ## Claim C6 (nonce derivation) -/

/-- Claim C6: the nonce `Encrypt` places in the envelope is the first 24
bytes of the keyed BLAKE3 hash of `u64_be(seq) || byte(role)` under key
`session_id`; the derivation is a deterministic function of
`(session_id, seq, role)`; and `Decrypt` recomputes the expected nonce with
the peer role, rejecting a mismatching transported nonce and otherwise
opening with the locally derived one. -/
theorem nonce_derivation_spec (b3 : Bytes → Bytes → Bytes) :
    (∀ (s : Session) (pt : Bytes) (md : Metadata) (now : Int),
      (s.encrypt b3 pt md now).1.nonce
        = (b3 s.sessionID (u64be ((s.sendSeq + 1) % u64Mod) ++ [s.role.byteVal])).take 24) ∧
    (∀ (sid1 sid2 : Bytes) (q1 q2 : Nat) (r1 r2 : Role),
      sid1 = sid2 → q1 = q2 → r1 = r2 →
      computeNonce b3 sid1 q1 r1 = computeNonce b3 sid2 q2 r2) ∧
    (∀ (s : Session) (env : Envelope) (now : Int) (w : Window),
      s.recvWindow.accept env.sequence = .ok w →
      env.nonce ≠ [] → env.nonce ≠ computeNonce b3 s.sessionID env.sequence s.role.peer →
      (s.decrypt b3 env now).1 = .error .nonceMismatch) ∧
    (∀ (s : Session) (env : Envelope) (now : Int) (w : Window),
      s.recvWindow.accept env.sequence = .ok w →
      (env.nonce = [] ∨ env.nonce = computeNonce b3 s.sessionID env.sequence s.role.peer) →
      (s.decrypt b3 env now).1
        = match s.recvCipher.openOp (computeNonce b3 s.sessionID env.sequence s.role.peer)
            env.ciphertext (metadataAAD env.metadata) with
          | none => .error .aeadFailure
          | some p => .ok (p, s.rotation.shouldRotateLocked now)) := by
  refine ⟨?_, ?_, ?_, ?_⟩
  · intro s pt md now
    rfl
  · intro sid1 sid2 q1 q2 r1 r2 h1 h2 h3
    rw [h1, h2, h3]
  · intro s env now w ha hne hmm
    rw [decrypt_of_accept b3 s env now w (accept_ok_pos ha) ha, if_pos ⟨hne, hmm⟩]
  · intro s env now w ha hnonce
    rw [decrypt_of_accept b3 s env now w (accept_ok_pos ha) ha,
      if_neg (by rcases hnonce with h | h <;> simp [h])]
    rcases ho : s.recvCipher.openOp (computeNonce b3 s.sessionID env.sequence s.role.peer)
        env.ciphertext (metadataAAD env.metadata) with _ | p <;> rfl

/-- Claim C6 witness: on the concrete session the envelope nonce equals the
specified derivation, and a transported nonce differing from the peer-role
derivation is rejected. -/
theorem nonce_derivation_spec_witness :
    (cxSession.encrypt cxB3 [3] [] 0).1.nonce
      = (cxB3 cxSession.sessionID
          (u64be ((cxSession.sendSeq + 1) % u64Mod) ++ [cxSession.role.byteVal])).take 24 ∧
    (cxSession.decrypt cxB3 cxEnvBadNonce 0).1 = .error .nonceMismatch := by
  obtain ⟨henc, -, hmm, -⟩ := nonce_derivation_spec cxB3
  exact ⟨henc cxSession [3] [] 0,
    hmm cxSession cxEnvBadNonce 0 ⟨2048, 1, [1]⟩ (by decide) (by decide) (by decide)⟩

/-! ## Claim C8 (nonce comparison in Decrypt) -/

/-- Claim C8: after replay acceptance, a non-empty transported nonce that
differs from the nonce derived with the peer role makes `Decrypt` fail with
the nonce-mismatch error regardless of the receive cipher (so before any AEAD
open); an absent nonce skips the comparison and `Decrypt` opens with the
locally derived nonce. -/
theorem decrypt_nonce_check_spec (b3 : Bytes → Bytes → Bytes) :
    (∀ (s : Session) (c : CipherAEAD) (env : Envelope) (now : Int) (w : Window),
      s.recvWindow.accept env.sequence = .ok w →
      env.nonce ≠ [] → env.nonce ≠ computeNonce b3 s.sessionID env.sequence s.role.peer →
      (Session.decrypt b3 { s with recvCipher := c } env now).1 = .error .nonceMismatch) ∧
    (∀ (s : Session) (env : Envelope) (now : Int) (w : Window),
      s.recvWindow.accept env.sequence = .ok w → env.nonce = [] →
      (s.decrypt b3 env now).1
        = match s.recvCipher.openOp (computeNonce b3 s.sessionID env.sequence s.role.peer)
            env.ciphertext (metadataAAD env.metadata) with
          | none => .error .aeadFailure
          | some p => .ok (p, s.rotation.shouldRotateLocked now)) := by
  constructor
  · intro s c env now w ha hne hmm
    rw [decrypt_of_accept b3 { s with recvCipher := c } env now w (accept_ok_pos ha) ha,
      if_pos ⟨hne, hmm⟩]
  · intro s env now w ha hnonce
    rw [decrypt_of_accept b3 s env now w (accept_ok_pos ha) ha, if_neg (by simp [hnonce])]
    rcases ho : s.recvCipher.openOp (computeNonce b3 s.sessionID env.sequence s.role.peer)
        env.ciphertext (metadataAAD env.metadata) with _ | p <;> rfl

/-- Claim C8 witness: a wrong transported nonce is rejected even under a
different cipher, and the nonce-free envelope is opened with the derived
nonce. -/
theorem decrypt_nonce_check_spec_witness :
    (Session.decrypt cxB3 { cxSession with recvCipher := cxCipher } cxEnvBadNonce 0).1
      = .error .nonceMismatch ∧
    (cxSession.decrypt cxB3 cxEnv 0).1
      = .ok ([1, 2], cxSession.rotation.shouldRotateLocked 0) := by
  obtain ⟨hbad, hopen⟩ := decrypt_nonce_check_spec cxB3
  refine ⟨hbad cxSession cxCipher cxEnvBadNonce 0 ⟨2048, 1, [1]⟩ (by decide) (by decide)
    (by decide), ?_⟩
  rw [hopen cxSession cxEnv 0 ⟨2048, 1, [1]⟩ (by decide) rfl]
  rfl

/-! ## Claim C9 (failed Decrypt burns the sequence) -/

/-- Claim C9: `Decrypt` records the sequence in the replay window before the
nonce check and the AEAD open, and a failure of either does not roll the
window back: the sequence stays recorded, any later envelope with the same
sequence is rejected as a replay duplicate, and other sequences the window
accepts still decrypt. -/
theorem decrypt_failure_burns_sequence (b3 : Bytes → Bytes → Bytes)
    (s : Session) (env : Envelope) (now : Int) (w : Window)
    (hd : 0 < s.recvWindow.depth)
    (ha : s.recvWindow.accept env.sequence = .ok w)
    (hf : (s.decrypt b3 env now).1 = .error .nonceMismatch ∨
          (s.decrypt b3 env now).1 = .error .aeadFailure) :
    (s.decrypt b3 env now).2.recvWindow = w ∧
    env.sequence ∈ w.seen ∧
    (∀ (env2 : Envelope) (now2 : Int), env2.sequence = env.sequence →
      (((s.decrypt b3 env now).2).decrypt b3 env2 now2).1 = .error (.replay .duplicate)) ∧
    (∀ (env2 : Envelope) (now2 : Int) (w2 : Window) (p : Bytes),
      w.accept env2.sequence = .ok w2 → env2.nonce = [] →
      s.recvCipher.openOp (computeNonce b3 s.sessionID env2.sequence s.role.peer)
          env2.ciphertext (metadataAAD env2.metadata) = some p →
      (((s.decrypt b3 env now).2).decrypt b3 env2 now2).1
        = .ok (p, s.rotation.shouldRotateLocked now2)) := by
  have h0 := accept_ok_pos ha
  have hsnd := decrypt_snd_of_accept b3 s env now w h0 ha
  refine ⟨by rw [hsnd], (accept_ok_fields hd ha).2.1, ?_, ?_⟩
  · intro env2 now2 he
    rw [hsnd, Session.decrypt, if_neg (by rw [he]; exact h0)]
    dsimp only
    rw [he, accept_ok_reaccept hd ha]
  · intro env2 now2 w2 p ha2 hn2 ho
    rw [hsnd,
      decrypt_of_accept b3 { s with recvWindow := w } env2 now2 w2 (accept_ok_pos ha2) ha2,
      if_neg (by simp [hn2])]
    dsimp only
    rw [ho]

/-- Claim C9 witness: after a nonce-mismatch failure on sequence 1, the
legitimate sequence-1 envelope is rejected as a duplicate while a sequence-2
envelope still decrypts. -/
theorem decrypt_failure_burns_sequence_witness :
    ((cxSession.decrypt cxB3 cxEnvBadNonce 0).2.decrypt cxB3 cxEnv 0).1
      = .error (.replay .duplicate) ∧
    ((cxSession.decrypt cxB3 cxEnvBadNonce 0).2.decrypt cxB3 cxEnv2 0).1
      = .ok ([7], cxSession.rotation.shouldRotateLocked 0) := by
  obtain ⟨-, -, hdup, hok⟩ := decrypt_failure_burns_sequence cxB3 cxSession cxEnvBadNonce 0
    ⟨2048, 1, [1]⟩ (by decide) (by decide) (Or.inl (by decide))
  exact ⟨hdup cxEnv 0 rfl, hok cxEnv2 0 ⟨2048, 2, [2, 1]⟩ [7] (by decide) rfl (by decide)⟩

/-! ## Claim C2 (encrypt/decrypt round trip) -/

/-- Shape of a session `NewSession` returns for the XChaCha20-Poly1305 AEAD:
role and session id from the config keys, fresh counters, directional
ciphers, fresh replay window. -/
theorem newSession_ok_fields (newX : Bytes → CipherAEAD) (cfg : SessionConfig)
    (s : Session) (haead : cfg.aead = "xchacha20poly1305")
    (h : newSession newX cfg = .ok s) :
    s.role = cfg.role ∧ s.sessionID = cfg.keys.sessionID ∧ s.sendSeq = 0 ∧
    s.sendCipher = newX (directionalKeys cfg.role cfg.keys).1 ∧
    s.recvCipher = newX (directionalKeys cfg.role cfg.keys).2 ∧
    s.recvWindow = replayNew cfg.replayDepth := by
  rw [newSession] at h
  split at h
  · exact absurd h (by simp)
  · split at h
    · exact absurd h (by simp)
    · rename_i ciphers heq
      rw [buildCiphers, sessionAEADDefault, haead] at heq
      simp only [String.reduceEq, reduceIte] at heq
      split at heq
      · split at heq
        · cases heq
          cases h
          exact ⟨rfl, rfl, rfl, rfl, rfl, rfl⟩
        · exact absurd heq (by simp)
      · exact absurd heq (by simp)

/-- Claim C2: a pair of sessions built by `NewSession` from the same
scheduler keys with opposite roles round-trips every plaintext and metadata
map: whatever state the sender's counters are in, if the receiver's replay
window accepts the envelope's sequence, `Decrypt` returns exactly the
original plaintext (with the AEAD's open-inverts-seal contract for the
cipher the library provides). -/
theorem session_roundtrip
    (b3 : Bytes → Bytes → Bytes) (newX : Bytes → CipherAEAD)
    (hAead : ∀ k nonce pt aad, (newX k).openOp nonce ((newX k).sealOp nonce pt aad) aad = some pt)
    (cfgA cfgB : SessionConfig) (sA sB : Session)
    (haA : cfgA.aead = "xchacha20poly1305") (haB : cfgB.aead = "xchacha20poly1305")
    (hkeys : cfgB.keys = cfgA.keys) (hrole : cfgB.role = cfgA.role.peer)
    (hA : newSession newX cfgA = .ok sA) (hB : newSession newX cfgB = .ok sB)
    (n m : Nat) (wA wB : Window) (rA rB : RotationManager)
    (pt : Bytes) (md : Metadata) (nowE nowD : Int) (w1 : Window)
    (hWin : wB.accept
        (({ sA with sendSeq := n, rotation := rA, recvWindow := wA }).encrypt
          b3 pt md nowE).1.sequence = .ok w1) :
    (({ sB with sendSeq := m, rotation := rB, recvWindow := wB }).decrypt b3
        (({ sA with sendSeq := n, rotation := rA, recvWindow := wA }).encrypt
          b3 pt md nowE).1 nowD).1
      = .ok (pt, rB.shouldRotateLocked nowD) := by
  obtain ⟨hroleA, hsidA, -, hsendA, -, -⟩ := newSession_ok_fields newX cfgA sA haA hA
  obtain ⟨hroleB, hsidB, -, -, hrecvB, -⟩ := newSession_ok_fields newX cfgB sB haB hB
  have henv : (({ sA with sendSeq := n, rotation := rA, recvWindow := wA }).encrypt
      b3 pt md nowE).1
      = { ciphertext := sA.sendCipher.sealOp
            (computeNonce b3 sA.sessionID ((n + 1) % u64Mod) sA.role) pt
            (metadataAAD (copyMap md)),
          nonce := computeNonce b3 sA.sessionID ((n + 1) % u64Mod) sA.role,
          sequence := (n + 1) % u64Mod,
          epoch := ((rA.record nowE).2).nextEpoch,
          metadata := copyMap md } := rfl
  rw [henv] at hWin ⊢
  dsimp only at hWin
  have h0 : ((n + 1) % u64Mod) ≠ 0 := accept_ok_pos hWin
  rw [decrypt_of_accept b3 { sB with sendSeq := m, rotation := rB, recvWindow := wB }
    _ nowD w1 h0 hWin]
  dsimp only
  have hsid : sB.sessionID = sA.sessionID := by rw [hsidB, hkeys, ← hsidA]
  have hrole2 : sB.role.peer = sA.role := by
    rw [hroleB, hrole, Role.peer_peer, ← hroleA]
  have hcipher : sB.recvCipher = newX (directionalKeys cfgA.role cfgA.keys).1 := by
    rw [hrecvB, hrole, hkeys, directionalKeys_peer_snd]
  rw [hsid, hrole2, hcipher, if_neg (by simp)]
  rw [hsendA, hAead]

/-- Session used when a fallback value is needed for `Except.toOption.getD`
(never reached by the witnesses). -/
def cxNewX : Bytes → CipherAEAD := fun _ => cxCipher

/-- Concrete scheduler keys shared by the witness session pair. -/
def cxKeys : Keys :=
  { sessionID := List.replicate 32 3, clientToServer := List.replicate 32 4,
    serverToClient := List.replicate 32 5, exporterSecret := List.replicate 32 6,
    transcriptHash := List.replicate 32 7, sharedSecret := List.replicate 32 8,
    establishedAt := 0, nextRotation := 600000000000 }

/-- Client-side session config of the witness pair. -/
def cxCfgClient : SessionConfig :=
  { role := .client, mode := "strict", aead := "xchacha20poly1305", keys := cxKeys,
    rotation := ⟨0, 0, 0⟩, replayDepth := 0, policy := none, epoch := 0 }

/-- Server-side session config of the witness pair. -/
def cxCfgServer : SessionConfig := { cxCfgClient with role := .server }

/-- The client session `NewSession` builds for the witness. -/
def cxClientSession : Session := (newSession cxNewX cxCfgClient).toOption.getD cxSession

/-- The server session `NewSession` builds for the witness. -/
def cxServerSession : Session := (newSession cxNewX cxCfgServer).toOption.getD cxSession

/-- The client session with its mutable state made explicit, matching the
round-trip statement. -/
def cxClientState : Session :=
  { cxClientSession with sendSeq := 0, rotation := cxManager, recvWindow := replayNew 0 }

/-- The server session with its mutable state made explicit. -/
def cxServerState : Session :=
  { cxServerSession with sendSeq := 0, rotation := cxManager, recvWindow := replayNew 0 }

/-- Claim C2 witness: the freshly paired concrete sessions round-trip the
plaintext `[10, 11]`. -/
theorem session_roundtrip_witness :
    (cxServerState.decrypt cxB3 (cxClientState.encrypt cxB3 [10, 11] [] 0).1 0).1
      = .ok ([10, 11], cxManager.shouldRotateLocked 0) :=
  session_roundtrip cxB3 cxNewX (fun _ _ _ _ => rfl) cxCfgClient cxCfgServer
    cxClientSession cxServerSession rfl rfl rfl rfl rfl rfl 0 0 (replayNew 0) (replayNew 0)
    cxManager cxManager [10, 11] [] 0 0 ⟨2048, 1, [1]⟩ (by decide)

/-! ## Claim C1 (handshake key agreement) -/

/-- The key-material fields of `scheduler.Derive` depend only on the shared
secret, the transcript digest and the scheduler config — not on the
derivation time. -/
theorem schedulerDerive_det (hkdf : Bytes → Bytes → Bytes → Bytes)
    (b3hash : Bytes → Bytes) (ss td : Bytes) (cfg : SchedulerConfig)
    (n1 n2 : Int) (k1 k2 : Keys)
    (h1 : schedulerDerive hkdf b3hash ss td cfg n1 = .ok k1)
    (h2 : schedulerDerive hkdf b3hash ss td cfg n2 = .ok k2) :
    k1.sessionID = k2.sessionID ∧ k1.clientToServer = k2.clientToServer ∧
    k1.serverToClient = k2.serverToClient := by
  simp only [schedulerDerive] at h1 h2
  set cks := (if cfg.clientKeySize ≤ 0 then (32 : Int) else cfg.clientKeySize).toNat with hcks
  set sks := (if cfg.serverKeySize ≤ 0 then (32 : Int) else cfg.serverKeySize).toNat with hsks
  set eks := (if cfg.exporterSize ≤ 0 then (32 : Int) else cfg.exporterSize).toNat with heks
  set okm := hkdf cfg.salt ss (buildInfo cfg.mode td) with hokm
  by_cases hss : ss = []
  · rw [if_pos hss] at h1
    exact absurd h1 (by simp)
  · rw [if_neg hss] at h1 h2
    by_cases htd : td = []
    · rw [if_pos htd] at h1
      exact absurd h1 (by simp)
    · rw [if_neg htd] at h1 h2
      by_cases hl1 : okm.length < cks
      · rw [if_pos hl1] at h1
        exact absurd h1 (by simp)
      · rw [if_neg hl1] at h1 h2
        by_cases hl2 : okm.length < cks + sks
        · rw [if_pos hl2] at h1
          exact absurd h1 (by simp)
        · rw [if_neg hl2] at h1 h2
          by_cases hl3 : okm.length < cks + sks + eks
          · rw [if_pos hl3] at h1
            exact absurd h1 (by simp)
          · rw [if_neg hl3] at h1 h2
            cases h1
            cases h2
            exact ⟨rfl, rfl, rfl⟩

/-- Claim C1: when `Client.Initiate`, `Server.Accept` and
`PendingClient.Finish` all succeed on an honestly relayed exchange, with both
sides configured with the same scheduler parameters and the KEM
decapsulating the initiator's ciphertext to the encapsulated shared secret
(the KEM correctness contract, i.e. the same shared secret on both sides),
the derived `SessionID`, `ClientToServer` and `ServerToClient` keys agree
byte-wise. -/
theorem handshake_derived_keys_agree
    (P : Prims) (ccfg : ClientConfig) (scfg : ServerConfig)
    (clientNonce coins serverNonce : Bytes) (ts1 ts2 nowS nowC : Int)
    (init : ClientInit) (pending : PendingClient) (resp : ServerResponse)
    (serverKeys clientKeys : Keys)
    (hsched : ccfg.sched = scfg.sched)
    (hInit : clientInitiate P ccfg clientNonce coins ts1 = .ok (init, pending))
    (hAccept : serverAccept P scfg init serverNonce ts2 nowS = .ok (resp, serverKeys))
    (hKem : P.decaps scfg.kemPrivate init.ciphertext = .ok pending.sharedSecret)
    (hFinish : pendingFinish P pending resp nowC = .ok clientKeys) :
    clientKeys.sessionID = serverKeys.sessionID ∧
    clientKeys.clientToServer = serverKeys.clientToServer ∧
    clientKeys.serverToClient = serverKeys.serverToClient := by
  simp only [clientInitiate] at hInit
  rcases he : P.encaps ccfg.serverPublicKey coins with e | ctss
  · rw [he] at hInit
    exact absurd hInit (by simp)
  · rw [he] at hInit
    simp only [transcriptNew, Accumulator.append, String.reduceEq, reduceIte,
      List.nil_append] at hInit
    cases hInit
    simp only [serverAccept, transcriptNew, Accumulator.append, String.reduceEq,
      reduceIte, List.nil_append] at hAccept
    dsimp only at hAccept hKem hFinish
    split at hAccept
    · exact absurd hAccept (by simp)
    · rw [hKem] at hAccept
      dsimp only at hAccept
      split at hAccept
      · exact absurd hAccept (by simp)
      · rename_i keys1 hd1
        split at hAccept
        · exact absurd hAccept (by simp)
        · rename_i sig1 hs1
          split at hAccept
          · exact absurd hAccept (by simp)
          · rename_i confirm1 hc1
            cases hAccept
            simp only [pendingFinish, Accumulator.append, String.reduceEq, reduceIte,
              List.cons_append, List.nil_append] at hFinish
            dsimp only at hFinish
            split at hFinish
            · exact absurd hFinish (by simp)
            · split at hFinish
              · exact absurd hFinish (by simp)
              · split at hFinish
                · exact absurd hFinish (by simp)
                · split at hFinish
                  · exact absurd hFinish (by simp)
                  · rename_i keys2 hd2
                    split at hFinish
                    · exact absurd hFinish (by simp)
                    · rename_i confirm2 hc2
                      split at hFinish
                      · exact absurd hFinish (by simp)
                      · cases hFinish
                        rw [hsched] at hd2
                        exact schedulerDerive_det P.hkdf P.b3hash _ _ scfg.sched nowC nowS
                          _ _ hd2 hd1

/-- Capability set advertised by both witness endpoints. -/
def wCaps : CapabilitySet := ⟨"Kyber768", "Dilithium3", "xchacha20poly1305", ["grpc"]⟩

/-- Scheduler config shared by the witness endpoints. -/
def wSched : SchedulerConfig := ⟨"strict", 600000000000, 0, 0, 0, []⟩

/-- Concrete primitives for the handshake witness run: a prefix-marking hash,
a constant-output KDF, constant serialisers, and a KEM whose decapsulation
returns the encapsulated secret. -/
def wPrims : Prims :=
  { b3hash := fun b => 0 :: b,
    hkdf := fun _ _ _ => List.replicate 96 7,
    marshalCI := fun _ => [1],
    marshalSP := fun _ => [2],
    encaps := fun _ _ => .ok ([3], [4]),
    decaps := fun _ _ => .ok [4],
    sign := fun _ _ => .ok [5],
    verify := fun _ _ _ => true }

/-- Client config of the witness run. -/
def wCcfg : ClientConfig := ⟨"strict", [6], wSched, [7], wCaps⟩

/-- Server config of the witness run. -/
def wScfg : ServerConfig := ⟨"strict", [6], [8], [7], [9], wCaps, wSched⟩

/-- The `ClientInit` the witness initiation produces. -/
def wInit : ClientInit := ⟨1, "strict", 0, List.replicate 32 1, [3], wCaps⟩

/-- The pending state the witness initiation retains. -/
def wPending : PendingClient :=
  ⟨⟨"qsafe-handshake", [("client_init", [1])]⟩, [4], wCcfg, List.replicate 32 1⟩

/-- Fallback keys for `Option.getD` (never reached by the witness). -/
def wFallbackKeys : Keys := ⟨[], [], [], [], [], [], 0, 0⟩

/-- Fallback response for `Option.getD` (never reached by the witness). -/
def wFallbackResp : ServerResponse := ⟨⟨0, "", 0, [], 0, wCaps⟩, [], [], []⟩

/-- Result of `Server.Accept` in the witness run. -/
def wAcceptRes : Except HandshakeError (ServerResponse × Keys) :=
  serverAccept wPrims wScfg wInit (List.replicate 32 2) 0 0

/-- The server response of the witness run. -/
def wResp : ServerResponse := ((wAcceptRes.toOption).map Prod.fst).getD wFallbackResp

/-- The responder-side derived keys of the witness run. -/
def wServerKeys : Keys := ((wAcceptRes.toOption).map Prod.snd).getD wFallbackKeys

/-- The initiator-side derived keys of the witness run. -/
def wClientKeys : Keys := (pendingFinish wPrims wPending wResp 0).toOption.getD wFallbackKeys

/-- Claim C1 witness: the concrete handshake run succeeds end to end and both
sides derive the same session id and directional keys. -/
theorem handshake_derived_keys_agree_witness :
    wClientKeys.sessionID = wServerKeys.sessionID ∧
    wClientKeys.clientToServer = wServerKeys.clientToServer ∧
    wClientKeys.serverToClient = wServerKeys.serverToClient :=
  handshake_derived_keys_agree wPrims wCcfg wScfg (List.replicate 32 1) [2]
    (List.replicate 32 2) 0 0 0 0 wInit wPending wResp wServerKeys wClientKeys rfl
    (by decide) (by decide) (by decide) (by decide)

end QSafe
